import Mathlib

/-!
Verification development for the MJTranscripciones backend
(src/backend/main.py).

The service is a FastAPI application with five request handlers that glue
together a generative-model SDK and a Google Drive SDK.  The shallow
embedding below translates the handler bodies into pure Lean functions.
Every external call (metadata fetch, chunked download, model invocation,
report upload, file move) is resolved against an environment record that
supplies the outcome of that call as an `Except`; each handler returns its
HTTP response together with the ordered list of external operations it
issued before returning, so that sequencing and abort behaviour are visible
in the model.  Python strings are embedded as Lean `String`s (lists of
unicode scalar values), Python string methods used by the code
(`replace(_, _, 1)`, `split`, `join`, `startswith`, `strip`) are defined
below on character lists, and the bodies of uploaded files are embedded as
lists of byte values.
-/

/-! ### Python string primitives used by src/backend/main.py -/

/-- Python truthiness of an `os.getenv` result: `None` (unset) and the empty
string are falsy, every other string is truthy. -/
def pyTruthy : Option String → Bool
  | none => false
  | some s => !(s == "")

/-- Characters Python `str.strip()` removes: exactly the code points on
which `str.isspace()` holds — the ASCII whitespace and separator controls
plus NEL, NBSP, the Ogham space mark, the U+2000–U+200A spaces, the line
and paragraph separators, the narrow and medium mathematical spaces and the
ideographic space. -/
def pyIsSpace (c : Char) : Bool :=
  c == ' ' || c == '\t' || c == '\n' || c == '\r' || c == '\x0b' || c == '\x0c' ||
  c == '\x1c' || c == '\x1d' || c == '\x1e' || c == '\x1f' || c == '\x85' ||
  c == '\xa0' || c == '\u1680' || (Nat.ble 0x2000 c.toNat && Nat.ble c.toNat 0x200a) ||
  c == '\u2028' || c == '\u2029' || c == '\u202f' || c == '\u205f' || c == '\u3000'

/-- Python `str.strip()` on a character list: drop whitespace from the left,
then from the right (via reversal). -/
def pyStripList (l : List Char) : List Char :=
  ((l.dropWhile pyIsSpace).reverse.dropWhile pyIsSpace).reverse

/-- Python `str.rstrip()` on a character list: drop whitespace from the
right, via reversal. -/
def pyRStripList (l : List Char) : List Char :=
  (l.reverse.dropWhile pyIsSpace).reverse

/-- Python `str.strip()` on strings. -/
def pyStrip (s : String) : String :=
  ⟨pyStripList s.data⟩

/-- Python `s.replace(pat, repl, 1)` on character lists, for a non-empty
pattern: replace the leftmost occurrence of `pat`, leave everything else
unchanged.  (The source only calls it with the non-empty literal
"Grabacion de llamada ".) -/
def pyReplaceOnce (pat repl : List Char) : List Char → List Char
  | [] => []
  | c :: rest =>
    if pat.isPrefixOf (c :: rest) then repl ++ (c :: rest).drop pat.length
    else c :: pyReplaceOnce pat repl rest

/-- Python `s.split(sep)` for a one-character separator: the list of
(possibly empty) segments between occurrences of `sep`; always non-empty. -/
def pySplit (sep : Char) : List Char → List (List Char)
  | [] => [[]]
  | c :: rest =>
    if c = sep then [] :: pySplit sep rest
    else
      match pySplit sep rest with
      | [] => [[c]]
      | s :: ss => (c :: s) :: ss

/-- Python `sep.join(pieces)`. -/
def pyJoin (sep : String) : List String → String
  | [] => ""
  | [s] => s
  | s :: t :: rest => s ++ sep ++ pyJoin sep (t :: rest)

/-- Python `s.startswith(p)`. -/
def pyStartsWith (s p : String) : Bool :=
  p.data.isPrefixOf s.data

/-! ### HTTP-level data model -/

/-- Outcome of a request as seen by the client: a JSON body on success, or
an HTTP error status with a detail message (FastAPI `HTTPException`). -/
inductive ApiResponse (α : Type) where
  | ok (body : α)
  | error (status : Nat) (detail : String)
  deriving DecidableEq

/-- The HTTP error status of a response, if any. -/
def statusOf {α : Type} : ApiResponse α → Option Nat
  | .ok _ => none
  | .error s _ => some s

/-- Request body of POST /summarize-general (pydantic model, line 72). -/
structure GeneralSummaryRequest where
  transcription : String
  deriving DecidableEq

/-- Request body of POST /summarize-business (pydantic model, line 75);
`instructions` defaults to `[]` at the pydantic layer. -/
structure BusinessSummaryRequest where
  transcription : String
  instructions : List String
  deriving DecidableEq

/-- Request body of POST /transcribe-from-drive (pydantic model, line 79). -/
structure DriveRequest where
  drive_file_id : String
  instructions : List String
  deriving DecidableEq

/-! ### Prompt construction (lines 188-210, 250-255, 267-278)

The general-summary prompt template appears verbatim at two places in the
source (the drive handler, lines 188-193, and /summarize-general, lines
250-255), as does the business-summary template (lines 199-210 and 267-278);
each is embedded once and used for both call sites. -/

/-- Fixed part of the general-summary prompt before the transcript. -/
def generalPromptHead : String :=
  "Basado en la siguiente transcripción de una llamada, genera un resumen general claro y conciso...\n        Transcripción:\n        ---\n        "

/-- Fixed part of both summary prompts after the transcript. -/
def promptClose : String :=
  "\n        ---\n        "

/-- The f-string of lines 188-193 / 250-255 with the transcript spliced in. -/
def promptGeneralOf (transcription : String) : String :=
  generalPromptHead ++ transcription ++ promptClose

/-- Fixed part of the business-summary prompt before the directive slot. -/
def businessPromptHead : String :=
  "Basado en la siguiente transcripción de una llamada, genera un resumen de negocio claro y conciso...\n        "

/-- Fixed part of the business-summary prompt between the directive slot and
the transcript. -/
def businessPromptMid : String :=
  "\n        Transcripción:\n        ---\n        "

/-- The fixed sentence head prepended to the joined instructions
(line 202 / 270). -/
def directiveHead : String :=
  "Para este resumen, aplica estas reglas e instrucciones permanentes en todo momento: "

/-- permanent_instructions_text (lines 199-202 / 267-270): empty for an empty
instruction list, otherwise the directive head followed by the instructions
joined with ". ". -/
def permanentInstructionsText (instructions : List String) : String :=
  match instructions with
  | [] => ""
  | _ :: _ => directiveHead ++ pyJoin ". " instructions

/-- The f-string of lines 204-210 / 272-278 with directive text and
transcript spliced in. -/
def promptBusinessOf (transcription : String) (instructions : List String) : String :=
  businessPromptHead ++ permanentInstructionsText instructions ++ businessPromptMid ++
    transcription ++ promptClose

/-! ### The two local summary endpoints -/

/-- Environment for a handler that performs a single generative-model call:
the outcome of `generate_content_async(...).text` (an exception anywhere in
the call is an `Except.error` carrying `str(e)`). -/
structure GenAiEnv where
  responseResult : Except String String

/-- External model calls issued by the local summary handlers, with the full
prompt that was sent. -/
inductive SummaryOp where
  | generalCall (prompt : String)
  | businessCall (prompt : String)
  deriving DecidableEq

/-- Response JSON of the two summary endpoints. -/
structure SummaryJson where
  summary : String
  deriving DecidableEq

/-- POST /summarize-general (lines 246-261): build the prompt, call the
model once, return its text; any exception becomes a 500 whose detail is
`str(e)`.  There is no emptiness check on the transcript. -/
def summarize_general (env : GenAiEnv) (request : GeneralSummaryRequest) :
    ApiResponse SummaryJson × List SummaryOp :=
  match env.responseResult with
  | .ok text => (.ok ⟨text⟩, [.generalCall (promptGeneralOf request.transcription)])
  | .error e => (.error 500 e, [.generalCall (promptGeneralOf request.transcription)])

/-- POST /summarize-business (lines 263-284): build the directive text from
the instruction list, build the prompt, call the model once; any exception
becomes a 500. -/
def summarize_business (env : GenAiEnv) (request : BusinessSummaryRequest) :
    ApiResponse SummaryJson × List SummaryOp :=
  match env.responseResult with
  | .ok text =>
      (.ok ⟨text⟩, [.businessCall (promptBusinessOf request.transcription request.instructions)])
  | .error e =>
      (.error 500 e, [.businessCall (promptBusinessOf request.transcription request.instructions)])

/-! ### POST /transcribe -/

/-- A parsed multipart upload as FastAPI hands it to the handler. -/
structure UploadFileModel where
  filename : String
  content_type : String
  data : List Nat
  deriving DecidableEq

/-- Response JSON of POST /transcribe. -/
structure TranscriptionJson where
  transcription : String
  fileName : String
  deriving DecidableEq

/-- The single external model call issued by POST /transcribe: the audio
part's declared media type and bytes. -/
inductive TranscribeOp where
  | generateContent (mimeType : String) (data : List Nat)
  deriving DecidableEq

/-- Python truthiness of a `starlette.datastructures.UploadFile` instance:
the class defines neither a bool conversion nor a length, so every instance
is truthy; consequently the `if not file` branch at line 121 can never be
taken once the handler body runs. -/
def uploadFileFalsy (_file : UploadFileModel) : Bool := false

/-- Body of the /transcribe handler (lines 120-136): dead not-file check,
then one model call with the declared media type and the uploaded bytes;
exceptions become 500. -/
def transcribe_audio (env : GenAiEnv) (file : UploadFileModel) :
    ApiResponse TranscriptionJson × List TranscribeOp :=
  if uploadFileFalsy file then
    (.error 400 "No se subió ningún archivo.", [])
  else
    match env.responseResult with
    | .ok text => (.ok ⟨text, file.filename⟩, [.generateContent file.content_type file.data])
    | .error e => (.error 500 e, [.generateContent file.content_type file.data])

/-- Route-level behaviour of POST /transcribe.  The handler signature
`file: UploadFile = File(...)` (line 120) declares a required multipart
field, so FastAPI request validation rejects a request without a file field
with a 422 RequestValidationError before the handler body ever runs; the
handler itself only runs on `some file`.  The 422 branch embeds this
documented FastAPI framework contract. -/
def transcribeRoute (env : GenAiEnv) (file : Option UploadFileModel) :
    ApiResponse TranscriptionJson × List TranscribeOp :=
  match file with
  | none => (.error 422 "Field required", [])
  | some f => transcribe_audio env f

/-! ### POST /transcribe-from-drive -/

/-- Result of `drive_service.files().get(fileId=..., fields='mimeType, name,
parents')`: the Drive API may omit `parents`, in which case the Python dict
`.get` yields `None`. -/
structure FileMeta where
  mimeType : String
  name : String
  parents : Option (List String)
  deriving DecidableEq

/-- Response JSON of POST /transcribe-from-drive (lines 233-238). -/
structure DriveSuccess where
  fileName : String
  transcription : String
  generalSummary : String
  businessSummary : String
  deriving DecidableEq

/-- What the `try` body of the drive handler can raise: a deliberate
`HTTPException`, or any other Python exception carrying its message. -/
inductive PyExc where
  | httpException (status : Nat) (detail : String)
  | exception (message : String)
  deriving DecidableEq

/-- The `except` clause at lines 240-244: an `HTTPException` is re-raised
unchanged, every other exception becomes a 500 whose detail is `str(e)`. -/
def catchAllWrapper {α : Type} : Except PyExc α → ApiResponse α
  | .ok v => .ok v
  | .error (.httpException s d) => .error s d
  | .error (.exception m) => .error 500 m

/-- External operations issued by the drive handler, in the order they are
issued, with the data that was sent. -/
inductive DriveOp where
  | getMetadata (fileId : String)
  | downloadFile (fileId : String)
  | callTranscribe (mimeType : String) (data : List Nat)
  | callGeneralSummary (prompt : String)
  | callBusinessSummary (prompt : String)
  | createReport (name : String) (content : String) (parentFolder : String)
  | moveFile (fileId : String) (addParent : String) (removeParent : String) (newName : String)
  deriving DecidableEq

/-- The kind of an external operation, forgetting its payload. -/
inductive DriveOpKind where
  | metadataFetch
  | download
  | transcription
  | generalSummary
  | businessSummary
  | reportUpload
  | fileMove
  deriving DecidableEq

/-- Forget the payload of a drive operation. -/
def DriveOp.kind : DriveOp → DriveOpKind
  | .getMetadata _ => .metadataFetch
  | .downloadFile _ => .download
  | .callTranscribe _ _ => .transcription
  | .callGeneralSummary _ => .generalSummary
  | .callBusinessSummary _ => .businessSummary
  | .createReport _ _ _ => .reportUpload
  | .moveFile _ _ _ _ => .fileMove

/-- The fixed order in which the drive handler issues its external
operations. -/
def drivePipelineOrder : List DriveOpKind :=
  [.metadataFetch, .download, .transcription, .generalSummary, .businessSummary,
   .reportUpload, .fileMove]

/-- Environment of one drive-handler request: module-level configuration
plus the outcome of each external call the handler may issue.  `now` is the
timestamp string `datetime.now().strftime("%Y-%m-%d %H:%M:%S")` observed
during the request. -/
structure DriveEnv where
  driveServiceReady : Bool
  folderIdM4aDestination : Option String
  folderIdTxtDestination : Option String
  now : String
  metadataResult : Except String FileMeta
  downloadResult : Except String (List Nat)
  transcribeResult : Except String String
  generalResult : Except String String
  businessResult : Except String String
  createResult : Except String Unit
  moveResult : Except String Unit

/-- The literal filename head stripped by the drive handler (line 159). -/
def grabacionPrefixStr : String := "Grabacion de llamada "

/-- Display-name derivation (lines 158-161): if the stored name starts with
the literal "Grabacion de llamada ", replace its first occurrence with the
empty string (Python `replace(..., "", 1)`); otherwise keep the name. -/
def stripRecordingName (original_name : String) : String :=
  if pyStartsWith original_name grabacionPrefixStr then
    ⟨pyReplaceOnce grabacionPrefixStr.data [] original_name.data⟩
  else original_name

/-- Media-type remap (lines 175-177): both 3gpp container types are forced
to audio/m4a before the transcription call; everything else passes through. -/
def remapMime (mime : String) : String :=
  if mime == "video/3gpp" || mime == "audio/3gpp" then "audio/m4a" else mime

/-- The media type Drive reports for a folder (line 152). -/
def driveFolderMime : String := "application/vnd.google-apps.folder"

/-- Detail of the 400 raised for a folder identifier (line 154). -/
def folderErrorDetail : String :=
  "Error: El link es de una CARPETA, no de un archivo. Por favor, copia el link del archivo .m4a"

/-- Detail of the 500 raised when the drive client is absent (line 141). -/
def driveNotConfiguredDetail : String :=
  "Servicio de Google Drive no configurado. Revisa las variables de entorno."

/-- Detail of the 500 raised when a destination folder id is falsy
(line 143). -/
def folderIdsNotConfiguredDetail : String :=
  "IDs de carpetas de destino no configurados en el backend."

/-- The subscript `file_metadata.get('parents')[0]` at line 156: a missing
`parents` field gives `None[0]`, a TypeError; an empty list gives an
IndexError; otherwise the first parent folder id.  (The embedded TypeError
message omits the quote marks Python puts around NoneType.) -/
def firstParent : Option (List String) → Except PyExc String
  | none => .error (.exception "TypeError: NoneType object is not subscriptable")
  | some [] => .error (.exception "list index out of range")
  | some (p :: _) => .ok p

/-! ### Report document (lines 84-111, 214-222) -/

/-- Template text before the original filename. -/
def docHead : String :=
  "\n=========================================\nREGISTRO DE LLAMADA\n=========================================\n\nArchivo Original: "

/-- Template text between filename and timestamp. -/
def docAfterName : String :=
  "\nFecha de Procesamiento: "

/-- Template text between timestamp and transcription. -/
def docAfterFecha : String :=
  "\n\n-----------------------------------------\n1. TRANSCRIPCIÓN COMPLETA\n-----------------------------------------\n\n"

/-- Template text between transcription and general summary. -/
def docAfterTranscription : String :=
  "\n\n-----------------------------------------\n2. RESUMEN GENERAL DE LA LLAMADA\n-----------------------------------------\n\n"

/-- Template text between general summary and business summary. -/
def docAfterGeneral : String :=
  "\n\n-----------------------------------------\n3. RESUMEN DE NEGOCIO (PARA NOTAS RÁPIDAS)\n-----------------------------------------\n\n"

/-- Template text after the business summary (stripped away unless the
business summary ends in whitespace, in which case `strip` eats further). -/
def docTailRaw : String := "\n    "

/-- `docHead` as it survives the leading `strip`: the template starts with
one newline followed by an equals sign. -/
def docHeadStripped : String :=
  "=========================================\nREGISTRO DE LLAMADA\n=========================================\n\nArchivo Original: "

/-- generate_document_content (lines 84-111) with the timestamp string
passed in explicitly (the Python function reads the clock itself): the
f-string template around the four text fields, then `.strip()`. -/
def generate_document_content (file_name fecha_procesamiento transcription
    general_summary business_summary : String) : String :=
  pyStrip (docHead ++ file_name ++ docAfterName ++ fecha_procesamiento ++ docAfterFecha ++
    transcription ++ docAfterTranscription ++ general_summary ++ docAfterGeneral ++
    business_summary ++ docTailRaw)

/-- Report filename derivation (line 216): `new_name.split('.')[0] + ".txt"`,
i.e. the segment before the first dot — the whole name when there is no
dot — with ".txt" appended. -/
def txtReportFilename (new_name : String) : String :=
  (⟨(pySplit '.' new_name.data).headI⟩ : String) ++ ".txt"

/-- The `try` body of the drive handler (lines 145-238): metadata fetch,
folder check, parent lookup, name derivation, download, media-type remap,
transcription call, general-summary call, business-summary call, report
upload, file move.  Returns the result (or raised exception) together with
the ordered list of external operations that were issued; an exception
aborts the remaining steps and leaves the already-issued operations in the
trace. -/
def driveTryBody (env : DriveEnv) (request : DriveRequest) :
    Except PyExc DriveSuccess × List DriveOp :=
  let file_id := request.drive_file_id
  match env.metadataResult with
  | .error e => (.error (.exception e), [.getMetadata file_id])
  | .ok meta =>
    if meta.mimeType = driveFolderMime then
      (.error (.httpException 400 folderErrorDetail), [.getMetadata file_id])
    else
      match firstParent meta.parents with
      | .error exc => (.error exc, [.getMetadata file_id])
      | .ok original_parent =>
        let new_name := stripRecordingName meta.name
        match env.downloadResult with
        | .error e => (.error (.exception e), [.getMetadata file_id, .downloadFile file_id])
        | .ok fileBytes =>
          let mime := remapMime meta.mimeType
          match env.transcribeResult with
          | .error e =>
              (.error (.exception e),
               [.getMetadata file_id, .downloadFile file_id, .callTranscribe mime fileBytes])
          | .ok transcription =>
            let prompt_general := promptGeneralOf transcription
            match env.generalResult with
            | .error e =>
                (.error (.exception e),
                 [.getMetadata file_id, .downloadFile file_id, .callTranscribe mime fileBytes,
                  .callGeneralSummary prompt_general])
            | .ok general_summary =>
              let prompt_business := promptBusinessOf transcription request.instructions
              match env.businessResult with
              | .error e =>
                  (.error (.exception e),
                   [.getMetadata file_id, .downloadFile file_id, .callTranscribe mime fileBytes,
                    .callGeneralSummary prompt_general, .callBusinessSummary prompt_business])
              | .ok business_summary =>
                let txt_content := generate_document_content new_name env.now transcription
                  general_summary business_summary
                let txt_filename := txtReportFilename new_name
                let txtDest := env.folderIdTxtDestination.getD ""
                let m4aDest := env.folderIdM4aDestination.getD ""
                match env.createResult with
                | .error e =>
                    (.error (.exception e),
                     [.getMetadata file_id, .downloadFile file_id, .callTranscribe mime fileBytes,
                      .callGeneralSummary prompt_general, .callBusinessSummary prompt_business,
                      .createReport txt_filename txt_content txtDest])
                | .ok _ =>
                  match env.moveResult with
                  | .error e =>
                      (.error (.exception e),
                       [.getMetadata file_id, .downloadFile file_id,
                        .callTranscribe mime fileBytes, .callGeneralSummary prompt_general,
                        .callBusinessSummary prompt_business,
                        .createReport txt_filename txt_content txtDest,
                        .moveFile file_id m4aDest original_parent new_name])
                  | .ok _ =>
                      (.ok ⟨new_name, transcription, general_summary, business_summary⟩,
                       [.getMetadata file_id, .downloadFile file_id,
                        .callTranscribe mime fileBytes, .callGeneralSummary prompt_general,
                        .callBusinessSummary prompt_business,
                        .createReport txt_filename txt_content txtDest,
                        .moveFile file_id m4aDest original_parent new_name])

/-- POST /transcribe-from-drive (lines 138-244): the two configuration
checks raised outside the `try` block, then the `try` body with its
`except` wrapper. -/
def transcribe_from_drive (env : DriveEnv) (request : DriveRequest) :
    ApiResponse DriveSuccess × List DriveOp :=
  if env.driveServiceReady = true then
    if (pyTruthy env.folderIdM4aDestination && pyTruthy env.folderIdTxtDestination) = true then
      let r := driveTryBody env request
      (catchAllWrapper r.1, r.2)
    else
      (.error 500 folderIdsNotConfiguredDetail, [])
  else
    (.error 500 driveNotConfiguredDetail, [])

/-! ### Helper lemmas -/

/-- When the pattern is a non-empty leading pattern of the list, Python
replace-once replaces exactly that leading occurrence. -/
theorem pyReplaceOnce_of_isPrefixOf (pat repl : List Char) (hne : pat ≠ []) :
    ∀ l : List Char, pat.isPrefixOf l = true →
      pyReplaceOnce pat repl l = repl ++ l.drop pat.length := by
  intro l h
  cases l with
  | nil =>
    cases pat with
    | nil => exact absurd rfl hne
    | cons a as => simp [List.isPrefixOf] at h
  | cons c rest =>
    unfold pyReplaceOnce
    rw [if_pos h]

/-! ### C1: the general-summary endpoint and empty transcripts -/

/-- C1, counterexample: POST /summarize-general with an empty transcription
does not fail with a 400 — the handler has no emptiness check — and it does
issue a model call (whose prompt embeds the empty transcript). -/
theorem summarize_general_empty_not_rejected :
    statusOf (summarize_general ⟨Except.ok "resumen"⟩ ⟨""⟩).1 ≠ some 400 ∧
    (summarize_general ⟨Except.ok "resumen"⟩ ⟨""⟩).2 =
      [SummaryOp.generalCall (promptGeneralOf "")] := by
  constructor
  · simp [summarize_general, statusOf]
  · rfl

/-- C1, amended: for every transcription — the empty string included — the
general-summary handler issues exactly one model call, whose prompt is the
fixed template head, then the literal transcript, then the fixed close; and
the response status is never 400 (the model text on success, a 500 on
model failure). -/
theorem summarize_general_one_call (env : GenAiEnv) (request : GeneralSummaryRequest) :
    (summarize_general env request).2 =
      [SummaryOp.generalCall (generalPromptHead ++ request.transcription ++ promptClose)] ∧
    statusOf (summarize_general env request).1 ≠ some 400 := by
  rcases env with ⟨r⟩
  cases r <;> simp [summarize_general, statusOf, promptGeneralOf]

/-! ### C3: display-name derivation -/

/-- C3: a stored filename beginning with the literal "Grabacion de llamada "
is mapped to the remainder after that leading occurrence — replace-once with
a leading match is exactly a drop, so a second occurrence of the phrase
inside the remainder is untouched — and a filename without that head is
returned unchanged. -/
theorem stripRecordingName_spec (name : String) :
    (pyStartsWith name grabacionPrefixStr = true →
      stripRecordingName name = ⟨name.data.drop grabacionPrefixStr.data.length⟩) ∧
    (pyStartsWith name grabacionPrefixStr = false → stripRecordingName name = name) := by
  constructor
  · intro h
    have hd : grabacionPrefixStr.data ≠ [] := by decide
    have hr := pyReplaceOnce_of_isPrefixOf grabacionPrefixStr.data [] hd name.data h
    simp only [stripRecordingName, pyStartsWith] at *
    rw [if_pos h, hr]
    simp
  · intro h
    simp only [stripRecordingName, pyStartsWith] at *
    rw [if_neg]
    simp [h]

/-- C3, witness: the double-occurrence name keeps its second occurrence, and
a name without the literal head is unchanged. -/
theorem stripRecordingName_spec_witness :
    stripRecordingName "Grabacion de llamada Grabacion de llamada audio.m4a" =
      "Grabacion de llamada audio.m4a" ∧
    stripRecordingName "nota de voz.m4a" = "nota de voz.m4a" := by
  constructor
  · have h := (stripRecordingName_spec "Grabacion de llamada Grabacion de llamada audio.m4a").1
      (by decide)
    rw [h]
    decide
  · exact (stripRecordingName_spec "nota de voz.m4a").2 (by decide)

/-! ### C6: POST /transcribe without a file field -/

/-- C6: a request without a file field is rejected by FastAPI validation of
the required `File(...)` parameter with status 422 — not the 400 the dead
`if not file` branch would produce — and once a file is present the handler
never answers 400 either. -/
theorem transcribe_missing_file_status (env : GenAiEnv) :
    transcribeRoute env none = (ApiResponse.error 422 "Field required", []) ∧
    (∀ file, statusOf (transcribeRoute env (some file)).1 ≠ some 400) := by
  refine ⟨rfl, fun file => ?_⟩
  rcases env with ⟨r⟩
  cases r <;> simp [transcribeRoute, transcribe_audio, uploadFileFalsy, statusOf]

/-- Dropping a predicate from the left of an append, when the left part does
not vanish entirely. -/
theorem dropWhile_append_left {α : Type} {p : α → Bool} {l₁ : List α} (l₂ : List α)
    (hne : l₁.dropWhile p ≠ []) :
    (l₁ ++ l₂).dropWhile p = l₁.dropWhile p ++ l₂ := by
  induction l₁ with
  | nil => simp at hne
  | cons a l ih =>
    by_cases h : p a
    · simp only [List.dropWhile_cons, h, if_true] at hne
      simp only [List.cons_append, List.dropWhile_cons, h, if_true]
      exact ih hne
    · simp [List.dropWhile_cons, h]

/-- Dropping a predicate from the left of an append, when the left part
vanishes entirely. -/
theorem dropWhile_append_all {α : Type} {p : α → Bool} {l₁ : List α} (l₂ : List α)
    (hall : l₁.dropWhile p = []) :
    (l₁ ++ l₂).dropWhile p = l₂.dropWhile p := by
  induction l₁ with
  | nil => simp
  | cons a l ih =>
    by_cases h : p a
    · simp only [List.dropWhile_cons, h, if_true] at hall
      simp only [List.cons_append, List.dropWhile_cons, h, if_true]
      exact ih hall
    · simp [List.dropWhile_cons, h] at hall

/-- The first segment of a Python single-character split is the run of
characters before the first separator. -/
theorem pySplit_headI (sep : Char) :
    ∀ l : List Char, (pySplit sep l).headI = l.takeWhile (fun c => !(c == sep)) := by
  intro l
  induction l with
  | nil => rfl
  | cons c rest ih =>
    by_cases h : c = sep
    · subst h
      simp [pySplit, List.takeWhile_cons]
    · cases hr : pySplit sep rest with
      | nil =>
        rw [hr] at ih
        simp [pySplit, h, hr, List.takeWhile_cons, ← ih]
        rfl
      | cons s ss =>
        rw [hr] at ih
        simp [pySplit, h, hr, List.takeWhile_cons, ← ih]

/-- Unfolding lemma for `pyStrip` at the character-list level. -/
theorem pyStrip_data (s : String) : (pyStrip s).data = pyStripList s.data := rfl

/-! ### C9: report filename and report body -/

/-- Right-stripping distributes over an append whose right part does not
strip away entirely. -/
theorem pyRStripList_append (P Q : List Char)
    (hQ : Q.reverse.dropWhile pyIsSpace ≠ []) :
    pyRStripList (P ++ Q) = P ++ pyRStripList Q := by
  unfold pyRStripList
  rw [List.reverse_append, dropWhile_append_left _ hQ, List.reverse_append,
    List.reverse_reverse]

/-- Right-stripping absorbs an all-whitespace tail. -/
theorem pyRStripList_append_ws (X T : List Char)
    (hT : T.reverse.dropWhile pyIsSpace = []) :
    pyRStripList (X ++ T) = pyRStripList X := by
  unfold pyRStripList
  rw [List.reverse_append, dropWhile_append_all _ hT]

/-- A list ending in a non-whitespace character is unchanged by
right-stripping. -/
theorem pyRStripList_last (X : List Char) (c : Char) (hc : pyIsSpace c = false) :
    pyRStripList (X ++ [c]) = X ++ [c] := by
  unfold pyRStripList
  rw [List.reverse_append]
  simp only [List.reverse_cons, List.reverse_nil, List.nil_append, List.singleton_append]
  rw [List.dropWhile_cons, hc]
  simp

/-- Stripping an append splits into left-stripping the left part and
right-stripping the right part, when neither side strips away entirely. -/
theorem pyStripList_split (A B : List Char)
    (hA : A.dropWhile pyIsSpace ≠ [])
    (hB : B.reverse.dropWhile pyIsSpace ≠ []) :
    pyStripList (A ++ B) = A.dropWhile pyIsSpace ++ pyRStripList B := by
  unfold pyStripList pyRStripList
  rw [dropWhile_append_left _ hA, List.reverse_append, dropWhile_append_left _ hB,
    List.reverse_append, List.reverse_reverse]

set_option maxRecDepth 8000 in
set_option maxHeartbeats 1600000 in
/-- C9, counterexample: a business summary ending in a newline — an
ordinary model output — is trimmed by the final `strip()`: the report
generated for business summary "b\n" is identical to the one generated for
"b", and the text "b\n" does not occur in it at all, so the body does not
contain the business-summary text. -/
theorem report_body_trailing_whitespace_counterexample :
    generate_document_content "n" "f" "t" "g" "b\n" =
      generate_document_content "n" "f" "t" "g" "b" ∧
    ¬ "b\n".data <:+: (generate_document_content "n" "f" "t" "g" "b\n").data := by
  constructor
  · decide
  · decide

/-- C9 (amended): the uploaded report is named after the display name cut
at its first dot (the whole display name when it has no dot) with ".txt"
appended.  The report body is the stripped template: it contains the
display name, the timestamp, the transcription and the general summary in
order, followed by the business-summary header block and the business
summary right-stripped of its trailing whitespace; in particular the full
business-summary text is present whenever the summary is non-empty and
does not end in a whitespace character. -/
theorem report_filename_and_body :
    (∀ new_name : String,
      txtReportFilename new_name =
        (⟨new_name.data.takeWhile (fun c => !(c == '.'))⟩ : String) ++ ".txt") ∧
    (∀ new_name : String, '.' ∉ new_name.data →
      txtReportFilename new_name = new_name ++ ".txt") ∧
    (∀ file_name fecha t g b : String,
      (generate_document_content file_name fecha t g b).data =
        docHeadStripped.data ++ file_name.data ++ docAfterName.data ++ fecha.data ++
        docAfterFecha.data ++ t.data ++ docAfterTranscription.data ++ g.data ++
        pyRStripList (docAfterGeneral.data ++ b.data)) ∧
    (∀ file_name fecha t g b : String, ∀ (bs : List Char) (c : Char),
      b.data = bs ++ [c] → pyIsSpace c = false →
      (generate_document_content file_name fecha t g b).data =
        docHeadStripped.data ++ file_name.data ++ docAfterName.data ++ fecha.data ++
        docAfterFecha.data ++ t.data ++ docAfterTranscription.data ++ g.data ++
        docAfterGeneral.data ++ b.data) := by
  have bases : ∀ new_name : String,
      txtReportFilename new_name =
        (⟨new_name.data.takeWhile (fun c => !(c == '.'))⟩ : String) ++ ".txt" := by
    intro new_name
    simp only [txtReportFilename, pySplit_headI]
  have general : ∀ file_name fecha t g b : String,
      (generate_document_content file_name fecha t g b).data =
        docHeadStripped.data ++ file_name.data ++ docAfterName.data ++ fecha.data ++
        docAfterFecha.data ++ t.data ++ docAfterTranscription.data ++ g.data ++
        pyRStripList (docAfterGeneral.data ++ b.data) := by
    intro file_name fecha t g b
    simp only [generate_document_content, pyStrip_data]
    have hdata : (docHead ++ file_name ++ docAfterName ++ fecha ++ docAfterFecha ++
        t ++ docAfterTranscription ++ g ++ docAfterGeneral ++ b ++ docTailRaw).data =
        docHead.data ++ ((file_name.data ++ (docAfterName.data ++ (fecha.data ++
        (docAfterFecha.data ++ (t.data ++ (docAfterTranscription.data ++ g.data)))))) ++
        ((docAfterGeneral.data ++ b.data) ++ docTailRaw.data)) := by
      simp [String.data_append, List.append_assoc]
    rw [hdata]
    have hQ : ((docAfterGeneral.data ++ b.data) ++ docTailRaw.data).reverse.dropWhile
        pyIsSpace ≠ [] := by
      rw [List.reverse_append,
        dropWhile_append_all _ (by decide : docTailRaw.data.reverse.dropWhile pyIsSpace = [])]
      intro hnil
      have hall := List.dropWhile_eq_nil_iff.mp hnil
      have hmem : '3' ∈ (docAfterGeneral.data ++ b.data).reverse := by
        rw [List.mem_reverse]
        exact List.mem_append_left _ (by decide)
      exact absurd (hall '3' hmem) (by decide)
    have hB : ((file_name.data ++ (docAfterName.data ++ (fecha.data ++
        (docAfterFecha.data ++ (t.data ++ (docAfterTranscription.data ++ g.data)))))) ++
        ((docAfterGeneral.data ++ b.data) ++ docTailRaw.data)).reverse.dropWhile
        pyIsSpace ≠ [] := by
      rw [List.reverse_append, dropWhile_append_left _ hQ]
      intro hnil
      exact hQ (List.append_eq_nil.mp hnil).1
    rw [pyStripList_split _ _ (by decide : docHead.data.dropWhile pyIsSpace ≠ []) hB]
    rw [(by decide : docHead.data.dropWhile pyIsSpace = docHeadStripped.data)]
    rw [pyRStripList_append _ _ hQ]
    rw [pyRStripList_append_ws _ _
      (by decide : docTailRaw.data.reverse.dropWhile pyIsSpace = [])]
    simp [List.append_assoc]
  refine ⟨bases, ?_, general, ?_⟩
  · intro new_name hdot
    rw [bases new_name]
    have : new_name.data.takeWhile (fun c => !(c == '.')) = new_name.data :=
      List.takeWhile_eq_self_iff.mpr (by
        intro a ha
        have hne : a ≠ '.' := fun heq => hdot (heq ▸ ha)
        simp [hne])
    rw [this]
  · intro file_name fecha t g b bs c hb hc
    rw [general file_name fecha t g b, hb, ← List.append_assoc,
      pyRStripList_last _ _ hc]
    simp [List.append_assoc]

/-- C9, witness: a display name with two dots is cut at the first one; a
display name without a dot is kept whole; a concrete report body whose
business summary ends in a non-whitespace character decomposes into the
template segments around the five spliced texts. -/
theorem report_filename_and_body_witness :
    txtReportFilename "audio.llamada.m4a" = "audio" ++ ".txt" ∧
    txtReportFilename "sinpunto" = "sinpunto" ++ ".txt" ∧
    (generate_document_content "n" "2024-01-01 10:00:00" "t" "g" "b").data =
      docHeadStripped.data ++ "n".data ++ docAfterName.data ++ "2024-01-01 10:00:00".data ++
      docAfterFecha.data ++ "t".data ++ docAfterTranscription.data ++ "g".data ++
      docAfterGeneral.data ++ "b".data := by
  refine ⟨?_, ?_, ?_⟩
  · rw [report_filename_and_body.1 "audio.llamada.m4a"]
    decide
  · exact report_filename_and_body.2.1 "sinpunto" (by decide)
  · exact report_filename_and_body.2.2.2 "n" "2024-01-01 10:00:00" "t" "g" "b" [] 'b' rfl
      (by decide)

/-! ### Substring machinery for the directive-absence statement -/

/-- A prefix of an append is a prefix of the left part or extends it. -/
theorem isPrefix_append_cases {α : Type} {pat X B : List α} (h : pat <+: X ++ B) :
    pat <+: X ∨ ∃ q, pat = X ++ q ∧ q <+: B := by
  induction X generalizing pat with
  | nil => exact Or.inr ⟨pat, rfl, h⟩
  | cons a X ih =>
    cases pat with
    | nil => exact Or.inl List.nil_prefix
    | cons b bs =>
      rw [List.cons_append] at h
      obtain ⟨hb, hbs⟩ := List.cons_prefix_cons.mp h
      subst hb
      rcases ih hbs with h1 | ⟨q, hq, hqB⟩
      · exact Or.inl (List.cons_prefix_cons.mpr ⟨rfl, h1⟩)
      · exact Or.inr ⟨q, by rw [List.cons_append, hq], hqB⟩

/-- An infix of an append lies inside the left part, lies inside the right
part, or straddles the boundary as a non-empty suffix of the left part
followed by a non-empty prefix of the right part. -/
theorem isInfix_append_cases {α : Type} {pat A B : List α} (h : pat <:+: A ++ B) :
    pat <:+: A ∨ pat <:+: B ∨
      ∃ p q, pat = p ++ q ∧ p ≠ [] ∧ q ≠ [] ∧ p <:+ A ∧ q <+: B := by
  induction A with
  | nil => exact Or.inr (Or.inl (by simpa using h))
  | cons a A ih =>
    rw [List.cons_append] at h
    rcases List.infix_cons_iff.mp h with hp | hi
    · have hp' : pat <+: (a :: A) ++ B := by simpa [List.cons_append] using hp
      rcases isPrefix_append_cases hp' with h1 | ⟨q, hq, hqB⟩
      · exact Or.inl h1.isInfix
      · cases q with
        | nil =>
          left
          rw [hq]
          simp
        | cons c cs =>
          exact Or.inr (Or.inr ⟨a :: A, c :: cs, hq, by simp, by simp,
            List.suffix_refl _, hqB⟩)
    · rcases ih hi with h1 | h2 | ⟨p, q, hq, hpne, hqne, hs, hpre⟩
      · exact Or.inl (List.infix_cons_iff.mpr (Or.inr h1))
      · exact Or.inr (Or.inl h2)
      · exact Or.inr (Or.inr ⟨p, q, hq, hpne, hqne, hs.trans (List.suffix_cons a A), hpre⟩)

set_option maxRecDepth 8000 in
set_option maxHeartbeats 1600000 in
/-- When the transcript does not contain the directive sentence head, the
instruction-free business prompt does not contain it either: it cannot sit
inside the fixed template parts (checked by computation), inside the
transcript (hypothesis), or across any boundary (no proper piece of the
directive head matches the template edges). -/
theorem directive_not_in_plain_business_prompt (t : String)
    (h : ¬ directiveHead.data <:+: t.data) :
    ¬ directiveHead.data <:+: (promptBusinessOf t []).data := by
  intro hin
  have hd : (promptBusinessOf t []).data =
      (businessPromptHead ++ businessPromptMid).data ++ (t.data ++ promptClose.data) := by
    simp [promptBusinessOf, permanentInstructionsText, String.data_append, List.append_assoc]
  rw [hd] at hin
  rcases isInfix_append_cases hin with h1 | h2 | ⟨p, q, hpq, hpne, hqne, hs, hpre⟩
  · exact absurd h1 (by decide)
  · rcases isInfix_append_cases h2 with h3 | h4 | ⟨p, q, hpq, hpne, hqne, hs, hpre⟩
    · exact h h3
    · exact absurd h4 (by decide)
    · have hq : q = directiveHead.data.drop p.length := by
        rw [hpq, List.drop_left]
      have hlen := congrArg List.length hpq
      have hqpos : 0 < q.length := List.length_pos.mpr hqne
      have hlt : p.length < directiveHead.data.length := by
        rw [hlen, List.length_append]
        omega
      have hpos : 0 < p.length := List.length_pos.mpr hpne
      have hfact : ∀ i < directiveHead.data.length, 0 < i →
          ¬ (directiveHead.data.drop i <+: promptClose.data) := by decide
      exact hfact p.length hlt hpos (hq ▸ hpre)
  · have hp : p = directiveHead.data.take p.length := by
      rw [hpq, List.take_left]
    have hlen := congrArg List.length hpq
    have hqpos : 0 < q.length := List.length_pos.mpr hqne
    have hle : p.length < directiveHead.data.length := by
      rw [hlen, List.length_append]
      omega
    have hpos : 0 < p.length := List.length_pos.mpr hpne
    have hfact : ∀ i < directiveHead.data.length, 0 < i →
        ¬ (directiveHead.data.take i <:+ (businessPromptHead ++ businessPromptMid).data) := by
      decide
    exact hfact p.length hle hpos (hp ▸ hs)

/-! ### Drive-handler helper lemmas -/

/-- The wrapped handler either issued no operation (a configuration check
failed) or issued exactly the operations of the try body. -/
theorem transcribe_from_drive_trace_sub (env : DriveEnv) (request : DriveRequest) :
    (transcribe_from_drive env request).2 = [] ∨
    (transcribe_from_drive env request).2 = (driveTryBody env request).2 := by
  unfold transcribe_from_drive
  split
  · split
    · right
      rfl
    · left
      rfl
  · left
    rfl

/-- The operations of the try body always form a prefix of the canonical
pipeline order, and the full pipeline exactly when the body succeeds. -/
theorem driveTryBody_pipeline (env : DriveEnv) (request : DriveRequest) :
    ((driveTryBody env request).2.map DriveOp.kind) <+: drivePipelineOrder ∧
    ∀ s, (driveTryBody env request).1 = Except.ok s →
      (driveTryBody env request).2.map DriveOp.kind = drivePipelineOrder := by
  rcases env with ⟨ds, m4a, txt, now, mr, dr, tr, gr, br, cr, mvr⟩
  cases mr with
  | error e =>
    exact ⟨by simp [driveTryBody, DriveOp.kind]; decide,
           by intro s hs; simp [driveTryBody] at hs⟩
  | ok meta =>
    by_cases hmime : meta.mimeType = driveFolderMime
    · exact ⟨by simp [driveTryBody, hmime, DriveOp.kind]; decide,
             by intro s hs; simp [driveTryBody, hmime] at hs⟩
    · cases hpar : meta.parents with
      | none =>
        exact ⟨by simp [driveTryBody, hmime, hpar, firstParent, DriveOp.kind]; decide,
               by intro s hs; simp [driveTryBody, hmime, hpar, firstParent] at hs⟩
      | some ps =>
        cases ps with
        | nil =>
          exact ⟨by simp [driveTryBody, hmime, hpar, firstParent, DriveOp.kind]; decide,
                 by intro s hs; simp [driveTryBody, hmime, hpar, firstParent] at hs⟩
        | cons p0 ps =>
          cases dr with
          | error e =>
            exact ⟨by simp [driveTryBody, hmime, hpar, firstParent, DriveOp.kind]; decide,
                   by intro s hs; simp [driveTryBody, hmime, hpar, firstParent] at hs⟩
          | ok fileBytes =>
            cases tr with
            | error e =>
              exact ⟨by simp [driveTryBody, hmime, hpar, firstParent, DriveOp.kind]; decide,
                     by intro s hs; simp [driveTryBody, hmime, hpar, firstParent] at hs⟩
            | ok t2 =>
              cases gr with
              | error e =>
                exact ⟨by simp [driveTryBody, hmime, hpar, firstParent, DriveOp.kind]; decide,
                       by intro s hs; simp [driveTryBody, hmime, hpar, firstParent] at hs⟩
              | ok g2 =>
                cases br with
                | error e =>
                  exact ⟨by simp [driveTryBody, hmime, hpar, firstParent, DriveOp.kind]; decide,
                         by intro s hs; simp [driveTryBody, hmime, hpar, firstParent] at hs⟩
                | ok b2 =>
                  cases cr with
                  | error e =>
                    exact ⟨by simp [driveTryBody, hmime, hpar, firstParent, DriveOp.kind]; decide,
                           by intro s hs; simp [driveTryBody, hmime, hpar, firstParent] at hs⟩
                  | ok u =>
                    cases mvr with
                    | error e =>
                      exact ⟨by simp [driveTryBody, hmime, hpar, firstParent, DriveOp.kind]; decide,
                             by intro s hs; simp [driveTryBody, hmime, hpar, firstParent] at hs⟩
                    | ok u2 =>
                      exact ⟨by simp [driveTryBody, hmime, hpar, firstParent, DriveOp.kind,
                               drivePipelineOrder],
                             by intro s hs
                                simp [driveTryBody, hmime, hpar, firstParent, DriveOp.kind,
                                  drivePipelineOrder]⟩

/-- Payload invariants of the try body's model calls: a transcription call
always carries the remapped media type, and a business-summary call always
carries the business prompt built from the transcript the model returned and
the request's instruction list. -/
theorem driveTryBody_call_payloads (env : DriveEnv) (request : DriveRequest) (meta : FileMeta)
    (hmeta : env.metadataResult = Except.ok meta) :
    (∀ m d, DriveOp.callTranscribe m d ∈ (driveTryBody env request).2 →
      m = remapMime meta.mimeType) ∧
    (∀ pr, DriveOp.callBusinessSummary pr ∈ (driveTryBody env request).2 →
      ∃ t2, env.transcribeResult = Except.ok t2 ∧
        pr = promptBusinessOf t2 request.instructions) := by
  rcases env with ⟨ds, m4a, txt, now, mr, dr, tr, gr, br, cr, mvr⟩
  have hmr : mr = Except.ok meta := hmeta
  subst hmr
  by_cases hmime : meta.mimeType = driveFolderMime
  · constructor
    · intro m d hmem
      simp [driveTryBody, hmime] at hmem
    · intro pr hmem
      simp [driveTryBody, hmime] at hmem
  · cases hpar : meta.parents with
    | none =>
      constructor
      · intro m d hmem
        simp [driveTryBody, hmime, hpar, firstParent] at hmem
      · intro pr hmem
        simp [driveTryBody, hmime, hpar, firstParent] at hmem
    | some ps =>
      cases ps with
      | nil =>
        constructor
        · intro m d hmem
          simp [driveTryBody, hmime, hpar, firstParent] at hmem
        · intro pr hmem
          simp [driveTryBody, hmime, hpar, firstParent] at hmem
      | cons p0 ps =>
        cases dr with
        | error e =>
          constructor
          · intro m d hmem
            simp [driveTryBody, hmime, hpar, firstParent] at hmem
          · intro pr hmem
            simp [driveTryBody, hmime, hpar, firstParent] at hmem
        | ok fileBytes =>
          cases tr with
          | error e =>
            constructor
            · intro m d hmem
              simp [driveTryBody, hmime, hpar, firstParent] at hmem
              exact hmem.1
            · intro pr hmem
              simp [driveTryBody, hmime, hpar, firstParent] at hmem
          | ok t2 =>
            cases gr with
            | error e =>
              constructor
              · intro m d hmem
                simp [driveTryBody, hmime, hpar, firstParent] at hmem
                exact hmem.1
              · intro pr hmem
                simp [driveTryBody, hmime, hpar, firstParent] at hmem
            | ok g2 =>
              cases br with
              | error e =>
                constructor
                · intro m d hmem
                  simp [driveTryBody, hmime, hpar, firstParent] at hmem
                  exact hmem.1
                · intro pr hmem
                  simp [driveTryBody, hmime, hpar, firstParent] at hmem
                  exact ⟨t2, rfl, hmem⟩
              | ok b2 =>
                cases cr with
                | error e =>
                  constructor
                  · intro m d hmem
                    simp [driveTryBody, hmime, hpar, firstParent] at hmem
                    exact hmem.1
                  · intro pr hmem
                    simp [driveTryBody, hmime, hpar, firstParent] at hmem
                    exact ⟨t2, rfl, hmem⟩
                | ok u =>
                  cases mvr with
                  | error e =>
                    constructor
                    · intro m d hmem
                      simp [driveTryBody, hmime, hpar, firstParent] at hmem
                      exact hmem.1
                    · intro pr hmem
                      simp [driveTryBody, hmime, hpar, firstParent] at hmem
                      exact ⟨t2, rfl, hmem⟩
                  | ok u2 =>
                    constructor
                    · intro m d hmem
                      simp [driveTryBody, hmime, hpar, firstParent] at hmem
                      exact hmem.1
                    · intro pr hmem
                      simp [driveTryBody, hmime, hpar, firstParent] at hmem
                      exact ⟨t2, rfl, hmem⟩

/-! ### C2: instruction joining in the business prompt -/

/-- C2: for a non-empty instruction list the business prompt is the fixed
template with one directive sentence holding the instructions joined by
". " in input order (the join of a longer list peels off one instruction and
one ". " at a time); for the empty list the prompt is the template with
nothing in the directive slot, and the directive sentence head does not
occur anywhere in it (unless the transcript itself contains it); the
/summarize-business handler sends exactly this prompt in its single model
call, and every business-summary call of the drive handler sends this same
prompt built from its transcript and the request's instruction list. -/
theorem business_prompt_directive (t : String) (instrs : List String) :
    (instrs ≠ [] →
      promptBusinessOf t instrs =
        businessPromptHead ++ (directiveHead ++ pyJoin ". " instrs) ++ businessPromptMid ++
          t ++ promptClose) ∧
    (∀ a b rest, pyJoin ". " (a :: b :: rest) = a ++ ". " ++ pyJoin ". " (b :: rest)) ∧
    (∀ a, pyJoin ". " [a] = a) ∧
    (promptBusinessOf t [] = businessPromptHead ++ businessPromptMid ++ t ++ promptClose) ∧
    (¬ directiveHead.data <:+: t.data →
      ¬ directiveHead.data <:+: (promptBusinessOf t []).data) ∧
    (∀ env : GenAiEnv,
      (summarize_business env ⟨t, instrs⟩).2 =
        [SummaryOp.businessCall (promptBusinessOf t instrs)]) ∧
    (∀ (env : DriveEnv) (request : DriveRequest) (meta : FileMeta) (pr t2 : String),
      request.instructions = instrs → env.metadataResult = Except.ok meta →
      env.transcribeResult = Except.ok t2 →
      DriveOp.callBusinessSummary pr ∈ (transcribe_from_drive env request).2 →
      pr = promptBusinessOf t2 instrs) := by
  refine ⟨?_, fun a b rest => rfl, fun a => rfl, ?_,
    directive_not_in_plain_business_prompt t, ?_, ?_⟩
  · intro h
    cases instrs with
    | nil => exact absurd rfl h
    | cons a l => rfl
  · apply String.ext
    simp [promptBusinessOf, permanentInstructionsText, String.data_append]
  · intro env
    rcases env with ⟨r⟩
    cases r <;> rfl
  · intro env request meta pr t2 hinstr hmeta htr hmem
    rcases transcribe_from_drive_trace_sub env request with h | h
    · rw [h] at hmem
      simp at hmem
    · rw [h] at hmem
      obtain ⟨t3, ht3, hpr⟩ := (driveTryBody_call_payloads env request meta hmeta).2 pr hmem
      have ht23 : t2 = t3 := by
        have := htr.symm.trans ht3
        exact (Except.ok.injEq _ _).mp this
      rw [hinstr] at hpr
      rw [ht23]
      exact hpr

/-- C2, witness: two instructions produce one directive sentence holding
"a. b"; with no instructions the directive head is absent from the concrete
prompt. -/
theorem business_prompt_directive_witness :
    promptBusinessOf "hola" ["a", "b"] =
      businessPromptHead ++ (directiveHead ++ pyJoin ". " ["a", "b"]) ++ businessPromptMid ++
        "hola" ++ promptClose ∧
    ¬ directiveHead.data <:+: (promptBusinessOf "hola" []).data :=
  ⟨(business_prompt_directive "hola" ["a", "b"]).1 (by decide),
   (business_prompt_directive "hola" []).2.2.2.2.1 (by decide)⟩

/-! ### C4: media-type remap -/

/-- C4: both 3gpp media types are remapped to audio/m4a, every other media
type passes through unchanged, and the media type the drive handler sends in
its transcription call is always the remap of the type reported by the
metadata fetch. -/
theorem mime_remap_spec :
    remapMime "video/3gpp" = "audio/m4a" ∧
    remapMime "audio/3gpp" = "audio/m4a" ∧
    (∀ mime : String, mime ≠ "video/3gpp" → mime ≠ "audio/3gpp" → remapMime mime = mime) ∧
    (∀ (env : DriveEnv) (request : DriveRequest) (meta : FileMeta) (m : String) (d : List Nat),
      env.metadataResult = Except.ok meta →
      DriveOp.callTranscribe m d ∈ (transcribe_from_drive env request).2 →
      m = remapMime meta.mimeType) := by
  refine ⟨rfl, rfl, ?_, ?_⟩
  · intro mime h1 h2
    simp [remapMime, h1, h2]
  · intro env request meta m d hmeta hmem
    rcases transcribe_from_drive_trace_sub env request with h | h
    · rw [h] at hmem
      simp at hmem
    · rw [h] at hmem
      exact (driveTryBody_call_payloads env request meta hmeta).1 m d hmem

/-- C4, witness: an ordinary media type passes through the remap unchanged. -/
theorem mime_remap_spec_witness :
    remapMime "audio/mpeg" = "audio/mpeg" :=
  mime_remap_spec.2.2.1 "audio/mpeg" (by decide) (by decide)

/-- The wrapped handler is either the wrapped try body or one of the two
configuration failures. -/
theorem transcribe_from_drive_split (env : DriveEnv) (request : DriveRequest) :
    transcribe_from_drive env request =
      (catchAllWrapper (driveTryBody env request).1, (driveTryBody env request).2) ∨
    transcribe_from_drive env request = (ApiResponse.error 500 driveNotConfiguredDetail, []) ∨
    transcribe_from_drive env request = (ApiResponse.error 500 folderIdsNotConfiguredDetail, []) := by
  unfold transcribe_from_drive
  split
  · split
    · left
      rfl
    · right
      right
      rfl
  · right
    left
    rfl

/-! ### C5: folder identifiers are rejected with a 400 -/

/-- C5: when the fetched metadata reports the folder media type, the try
body raises the 400 HTTPException with the folder message, the catch-all
wrapper re-raises it unchanged (it does not become a 500), and the only
external operation issued is the metadata fetch — no download, no model
call, no storage write. -/
theorem drive_folder_rejected (env : DriveEnv) (request : DriveRequest) (meta : FileMeta)
    (hds : env.driveServiceReady = true)
    (hm4a : pyTruthy env.folderIdM4aDestination = true)
    (htxt : pyTruthy env.folderIdTxtDestination = true)
    (hmeta : env.metadataResult = Except.ok meta)
    (hmime : meta.mimeType = driveFolderMime) :
    (driveTryBody env request).1 =
      Except.error (PyExc.httpException 400 folderErrorDetail) ∧
    transcribe_from_drive env request =
      (ApiResponse.error 400 folderErrorDetail, [DriveOp.getMetadata request.drive_file_id]) := by
  constructor
  · simp [driveTryBody, hmeta, hmime]
  · simp [transcribe_from_drive, hds, hm4a, htxt, driveTryBody, hmeta, hmime, catchAllWrapper]

/-- C5, witness: a concrete folder identifier yields the 400 folder error
with only the metadata fetch in the trace. -/
theorem drive_folder_rejected_witness :
    transcribe_from_drive
        ⟨true, some "M4A", some "TXT", "2024-01-01 10:00:00",
         Except.ok ⟨"application/vnd.google-apps.folder", "Carpeta", some ["P0"]⟩,
         Except.ok [], Except.ok "t", Except.ok "g", Except.ok "b",
         Except.ok (), Except.ok ()⟩
        ⟨"FILE1", []⟩ =
      (ApiResponse.error 400 folderErrorDetail, [DriveOp.getMetadata "FILE1"]) :=
  (drive_folder_rejected _ _ ⟨"application/vnd.google-apps.folder", "Carpeta", some ["P0"]⟩
    rfl (by decide) (by decide) rfl rfl).2

/-! ### C7: strict sequencing, abort on failure, no rollback -/

/-- C7: the external operations of any drive request form a prefix of the
fixed pipeline order (so a failure at any step prevents every later
operation, and nothing — in particular no deletion or other compensating
operation — is ever issued after a failure), the full pipeline is issued
exactly on success, and when every step up to the report upload succeeds
but the move fails, the request surfaces the move error as a 500 while the
trace still ends with the report upload followed by the attempted move —
the uploaded report is not cleaned up. -/
theorem drive_pipeline_sequential :
    (∀ (env : DriveEnv) (request : DriveRequest),
      ((transcribe_from_drive env request).2.map DriveOp.kind) <+: drivePipelineOrder) ∧
    (∀ (env : DriveEnv) (request : DriveRequest) (s : DriveSuccess),
      (transcribe_from_drive env request).1 = ApiResponse.ok s →
      (transcribe_from_drive env request).2.map DriveOp.kind = drivePipelineOrder) ∧
    (∀ (env : DriveEnv) (request : DriveRequest) (meta : FileMeta) (p0 : String)
        (ps : List String) (fileBytes : List Nat) (t2 g b e : String),
      env.driveServiceReady = true →
      pyTruthy env.folderIdM4aDestination = true →
      pyTruthy env.folderIdTxtDestination = true →
      env.metadataResult = Except.ok meta →
      meta.mimeType ≠ driveFolderMime →
      meta.parents = some (p0 :: ps) →
      env.downloadResult = Except.ok fileBytes →
      env.transcribeResult = Except.ok t2 →
      env.generalResult = Except.ok g →
      env.businessResult = Except.ok b →
      env.createResult = Except.ok () →
      env.moveResult = Except.error e →
      (transcribe_from_drive env request).1 = ApiResponse.error 500 e ∧
      (transcribe_from_drive env request).2 =
        [DriveOp.getMetadata request.drive_file_id,
         DriveOp.downloadFile request.drive_file_id,
         DriveOp.callTranscribe (remapMime meta.mimeType) fileBytes,
         DriveOp.callGeneralSummary (promptGeneralOf t2),
         DriveOp.callBusinessSummary (promptBusinessOf t2 request.instructions),
         DriveOp.createReport (txtReportFilename (stripRecordingName meta.name))
           (generate_document_content (stripRecordingName meta.name) env.now t2 g b)
           (env.folderIdTxtDestination.getD ""),
         DriveOp.moveFile request.drive_file_id (env.folderIdM4aDestination.getD "") p0
           (stripRecordingName meta.name)]) := by
  refine ⟨?_, ?_, ?_⟩
  · intro env request
    rcases transcribe_from_drive_trace_sub env request with h | h
    · rw [h]
      exact List.nil_prefix
    · rw [h]
      exact (driveTryBody_pipeline env request).1
  · intro env request s hok
    rcases transcribe_from_drive_split env request with h | h | h
    · rw [h] at hok ⊢
      simp only at hok ⊢
      cases hb : (driveTryBody env request).1 with
      | ok v => exact (driveTryBody_pipeline env request).2 v hb
      | error pe =>
        rw [hb] at hok
        cases pe <;> simp [catchAllWrapper] at hok
    · rw [h] at hok
      simp at hok
    · rw [h] at hok
      simp at hok
  · intro env request meta p0 ps fileBytes t2 g b e hds hm4a htxt hmeta hmime hpar hdl htr
      hg hb2 hcr hmv
    constructor <;>
      simp [transcribe_from_drive, driveTryBody, hds, hm4a, htxt, hmeta, hmime, hpar,
        firstParent, hdl, htr, hg, hb2, hcr, hmv, catchAllWrapper]

/-- C7, witness: a concrete run in which only the final move fails surfaces
the move error as a 500 after having uploaded the report. -/
theorem drive_pipeline_sequential_witness :
    (transcribe_from_drive
        ⟨true, some "M4A", some "TXT", "2024-01-01 10:00:00",
         Except.ok ⟨"audio/3gpp", "Grabacion de llamada cliente.m4a", some ["P0"]⟩,
         Except.ok [1, 2], Except.ok "texto", Except.ok "gen", Except.ok "biz",
         Except.ok (), Except.error "boom"⟩
        ⟨"FILE1", []⟩).1 = ApiResponse.error 500 "boom" :=
  (drive_pipeline_sequential.2.2 _ ⟨"FILE1", []⟩
    ⟨"audio/3gpp", "Grabacion de llamada cliente.m4a", some ["P0"]⟩
    "P0" [] [1, 2] "texto" "gen" "biz" "boom"
    rfl (by decide) (by decide) rfl (by decide) rfl rfl rfl rfl rfl rfl rfl).1

/-! ### C8: unconfigured storage integration -/

/-- C8: with the drive client absent, or with the client present but either
destination-folder variable falsy, the handler answers 500 with the
corresponding descriptive message and issues no external operation at all. -/
theorem drive_unconfigured_rejects (env : DriveEnv) (request : DriveRequest) :
    (env.driveServiceReady = false →
      transcribe_from_drive env request =
        (ApiResponse.error 500 driveNotConfiguredDetail, [])) ∧
    (env.driveServiceReady = true →
      pyTruthy env.folderIdM4aDestination = false ∨
        pyTruthy env.folderIdTxtDestination = false →
      transcribe_from_drive env request =
        (ApiResponse.error 500 folderIdsNotConfiguredDetail, [])) := by
  constructor
  · intro h
    simp [transcribe_from_drive, h]
  · intro h hor
    rcases hor with hf | hf <;> simp [transcribe_from_drive, h, hf]

/-- C8, witness: a missing client and a missing audio-destination folder id
each produce their descriptive 500 with an empty trace. -/
theorem drive_unconfigured_rejects_witness :
    transcribe_from_drive
        ⟨false, some "M4A", some "TXT", "now",
         Except.ok ⟨"audio/m4a", "x", some ["P"]⟩, Except.ok [],
         Except.ok "t", Except.ok "g", Except.ok "b", Except.ok (), Except.ok ()⟩
        ⟨"F", []⟩ =
      (ApiResponse.error 500 driveNotConfiguredDetail, []) ∧
    transcribe_from_drive
        ⟨true, none, some "TXT", "now",
         Except.ok ⟨"audio/m4a", "x", some ["P"]⟩, Except.ok [],
         Except.ok "t", Except.ok "g", Except.ok "b", Except.ok (), Except.ok ()⟩
        ⟨"F", []⟩ =
      (ApiResponse.error 500 folderIdsNotConfiguredDetail, []) :=
  ⟨(drive_unconfigured_rejects _ _).1 rfl,
   (drive_unconfigured_rejects _ _).2 rfl (Or.inl rfl)⟩

/-! ### C10: the parents field and the move step -/

/-- C10: when the metadata carries no parents field, the unguarded
subscript raises, the request surfaces as a 500 (not a 400) and only the
metadata fetch was issued — no download, no model call, no storage write;
when the parents list is present and non-empty, a fully successful run
moves the file out of exactly the first parent entry, the rest of the list
being ignored. -/
theorem drive_parents_first_entry (env : DriveEnv) (request : DriveRequest) (meta : FileMeta)
    (hds : env.driveServiceReady = true)
    (hm4a : pyTruthy env.folderIdM4aDestination = true)
    (htxt : pyTruthy env.folderIdTxtDestination = true)
    (hmeta : env.metadataResult = Except.ok meta)
    (hmime : meta.mimeType ≠ driveFolderMime) :
    (meta.parents = none →
      transcribe_from_drive env request =
        (ApiResponse.error 500 "TypeError: NoneType object is not subscriptable",
         [DriveOp.getMetadata request.drive_file_id])) ∧
    (∀ (p0 : String) (ps : List String) (fileBytes : List Nat) (t2 g b : String),
      meta.parents = some (p0 :: ps) →
      env.downloadResult = Except.ok fileBytes →
      env.transcribeResult = Except.ok t2 →
      env.generalResult = Except.ok g →
      env.businessResult = Except.ok b →
      env.createResult = Except.ok () →
      env.moveResult = Except.ok () →
      (transcribe_from_drive env request).2 =
        [DriveOp.getMetadata request.drive_file_id,
         DriveOp.downloadFile request.drive_file_id,
         DriveOp.callTranscribe (remapMime meta.mimeType) fileBytes,
         DriveOp.callGeneralSummary (promptGeneralOf t2),
         DriveOp.callBusinessSummary (promptBusinessOf t2 request.instructions),
         DriveOp.createReport (txtReportFilename (stripRecordingName meta.name))
           (generate_document_content (stripRecordingName meta.name) env.now t2 g b)
           (env.folderIdTxtDestination.getD ""),
         DriveOp.moveFile request.drive_file_id (env.folderIdM4aDestination.getD "") p0
           (stripRecordingName meta.name)]) := by
  constructor
  · intro hpar
    simp [transcribe_from_drive, driveTryBody, hds, hm4a, htxt, hmeta, hmime, hpar,
      firstParent, catchAllWrapper]
  · intro p0 ps fileBytes t2 g b hpar hdl htr hg hb2 hcr hmv
    simp [transcribe_from_drive, driveTryBody, hds, hm4a, htxt, hmeta, hmime, hpar,
      firstParent, hdl, htr, hg, hb2, hcr, hmv]

/-- C10, witness: a concrete file without a parents field gives the 500
subscript failure after the metadata fetch alone; a concrete file with two
parent folders is moved out of the first one only. -/
theorem drive_parents_first_entry_witness :
    transcribe_from_drive
        ⟨true, some "M4A", some "TXT", "now",
         Except.ok ⟨"audio/m4a", "x.m4a", none⟩, Except.ok [],
         Except.ok "t", Except.ok "g", Except.ok "b", Except.ok (), Except.ok ()⟩
        ⟨"F", []⟩ =
      (ApiResponse.error 500 "TypeError: NoneType object is not subscriptable",
       [DriveOp.getMetadata "F"]) ∧
    (transcribe_from_drive
        ⟨true, some "M4A", some "TXT", "now",
         Except.ok ⟨"audio/m4a", "x.m4a", some ["P1", "P2"]⟩, Except.ok [7],
         Except.ok "t", Except.ok "g", Except.ok "b", Except.ok (), Except.ok ()⟩
        ⟨"F", []⟩).2 =
      [DriveOp.getMetadata "F",
       DriveOp.downloadFile "F",
       DriveOp.callTranscribe (remapMime "audio/m4a") [7],
       DriveOp.callGeneralSummary (promptGeneralOf "t"),
       DriveOp.callBusinessSummary (promptBusinessOf "t" []),
       DriveOp.createReport (txtReportFilename (stripRecordingName "x.m4a"))
         (generate_document_content (stripRecordingName "x.m4a") "now" "t" "g" "b")
         ((some "TXT").getD ""),
       DriveOp.moveFile "F" ((some "M4A").getD "") "P1" (stripRecordingName "x.m4a")] :=
  ⟨(drive_parents_first_entry _ _ ⟨"audio/m4a", "x.m4a", none⟩
      rfl (by decide) (by decide) rfl (by decide)).1 rfl,
   (drive_parents_first_entry _ _ ⟨"audio/m4a", "x.m4a", some ["P1", "P2"]⟩
      rfl (by decide) (by decide) rfl (by decide)).2
     "P1" ["P2"] [7] "t" "g" "b" rfl rfl rfl rfl rfl rfl rfl⟩
